import Mathlib

/-!
Verification of the pipeline orchestrator, sandbox session manager and
durable snapshot/context store of the lovable-clone repository.

The development shallowly embeds the relevant Python code:

* `agent/graph_nodes.py` — the four stage nodes (`planner_node`,
  `builder_node`, `code_validator_node`, `application_checker_node`) and the
  two routing functions (`should_retry_builder_for_validation`,
  `should_retry_builder_or_finish`).
* `agent/graph_builder.py` + `agent/service.py` — the langgraph wiring
  (planner → builder → code_validator → conditional → application_checker →
  conditional) and the initial pipeline state.
* `agent/service.py` — `get_e2b_sandbox`, `_restore_files_from_disk`,
  `snapshot_project_files`, `_save_conversation_history`.
* `agent/tools.py` — the `save_context` tool.

Each stage node performs opaque, effectful work (an LLM-driven agent run,
sandbox I/O).  Those effects are embedded as explicit *outcome* parameters:
one outcome constructor per control path of the Python function (normal
completion, `asyncio.TimeoutError`, a raised exception), so the Lean function
covers exactly the paths of the source.  Pure state manipulation is
translated line by line.  Log entries keep their `node`/`status` fields; the
extra payload fields of the Python log records (plans, file lists, error
lists) are not needed by any property proved here and are elided.
-/

namespace LovableClone

/-! ### Association-list primitives

Python `dict`s (the sandbox registry, the timestamp map) and the per-project
on-disk blob directory are embedded as association lists with
first-match lookup and in-place update. -/

def lookupA {α : Type} (l : List (String × α)) (k : String) : Option α :=
  match l with
  | [] => none
  | (k₂, v) :: r => if k₂ = k then some v else lookupA r k

def updateA {α : Type} (l : List (String × α)) (k : String) (v : α) : List (String × α) :=
  match l with
  | [] => [(k, v)]
  | (k₂, v₂) :: r => if k₂ = k then (k, v) :: r else (k₂, v₂) :: updateA r k v

def removeA {α : Type} (l : List (String × α)) (k : String) : List (String × α) :=
  match l with
  | [] => []
  | (k₂, v₂) :: r => if k₂ = k then r else (k₂, v₂) :: removeA r k

/-! ### Pipeline state (`agent/graph_state.py`)

`GraphState` carries the fields the orchestrator logic reads or writes.
The prompt strings, the sandbox/socket capability objects and the
`project_id` do not influence any transition decision and are omitted;
`plan` keeps the raw model response (its JSON decoding only reshapes the
payload). -/

structure ErrItem where
  etype : String
  error : String
  details : String
deriving DecidableEq

structure LogEntry where
  node : String
  status : String
deriving DecidableEq

/-- The `retry_count` dict; `service.py` initialises exactly the keys
`validation_errors` and `runtime_errors`. -/
structure RetryCount where
  validation_errors : Nat
  runtime_errors : Nat
deriving DecidableEq

/-- The `current_errors` dict: empty, or `{"validation_errors": [...]}`,
or `{"runtime_errors": [...]}`. -/
inductive CurrentErrors where
  | empty
  | validation (errs : List ErrItem)
  | runtime (errs : List ErrItem)
deriving DecidableEq

structure GraphState where
  plan : Option String
  files_created : List String
  files_modified : List String
  current_errors : CurrentErrors
  validation_errors : List ErrItem
  runtime_errors : List ErrItem
  retry_count : RetryCount
  max_retries : Nat
  current_node : String
  execution_log : List LogEntry
  success : Bool
  error_message : Option String
deriving DecidableEq

/-! ### Stage outcomes

One constructor per control path of the Python node body. -/

inductive PlannerOutcome where
  /-- the LLM call returned `plan` (JSON decoding never fails the node) -/
  | normal (plan : String)
  /-- an exception reached the outer `except` of `planner_node` -/
  | crash (msg : String)
deriving DecidableEq

inductive BuilderOutcome where
  /-- the agent run finished; `files_created` is scraped from tool outputs,
  `files_modified` is never appended to in the source and stays `[]` -/
  | completed (files_created : List String)
  /-- `asyncio.TimeoutError` in the inner `try` -/
  | timeout
  /-- any other exception in the inner `try` around the agent run -/
  | agentError (msg : String)
  /-- an exception reached the outer `except` of `builder_node` -/
  | crash (msg : String)
deriving DecidableEq

inductive ValidatorOutcome where
  /-- the agent run finished (the local `validation_errors` list is never
  appended to while streaming agent events) -/
  | normal
  /-- `asyncio.TimeoutError` in the inner `try` -/
  | timeout
  /-- an exception reached the outer `except` of `code_validator_node` -/
  | crash (msg : String)
deriving DecidableEq

inductive CheckerOutcome where
  /-- the per-file existence loop ran; `missing_files` is the sublist of the
  three main files whose `sandbox.files.read` raised -/
  | filesChecked (missing_files : List String)
  /-- the inner `try` around the file loop raised as a whole -/
  | fileCheckFailed (msg : String)
  /-- an exception reached the outer `except` of `application_checker_node` -/
  | crash (msg : String)
deriving DecidableEq

/-! ### Stage nodes (`agent/graph_nodes.py`) -/

/-- `planner_node` (graph_nodes.py:45-215). -/
def planner_node (state : GraphState) (o : PlannerOutcome) : GraphState :=
  match o with
  | .normal plan =>
      { state with
        plan := some plan
        current_node := "planner"
        execution_log := state.execution_log ++ [⟨"planner", "completed"⟩] }
  | .crash msg =>
      { state with
        current_node := "planner"
        error_message := some ("Planner node error: " ++ msg)
        execution_log := state.execution_log ++ [⟨"planner", "error"⟩] }

/-- `builder_node` (graph_nodes.py:218-538). -/
def builder_node (state : GraphState) (o : BuilderOutcome) : GraphState :=
  match o with
  | .completed files_created =>
      { state with
        files_created := files_created
        files_modified := []
        current_node := "builder"
        execution_log := state.execution_log ++ [⟨"builder", "completed"⟩] }
  | .timeout =>
      { state with
        files_created := []
        files_modified := []
        current_node := "builder"
        execution_log := state.execution_log ++ [⟨"builder", "timeout"⟩] }
  | .agentError _msg =>
      { state with
        files_created := []
        files_modified := []
        current_node := "builder"
        execution_log := state.execution_log ++ [⟨"builder", "error"⟩] }
  | .crash msg =>
      { state with
        current_node := "builder"
        error_message := some ("Builder node error: " ++ msg)
        execution_log := state.execution_log ++ [⟨"builder", "error"⟩] }

/-- `code_validator_node` (graph_nodes.py:542-829).  In the normal path the
local `validation_errors` list is initialised to `[]` and never appended to
by the event-streaming loop, so the `if validation_errors:` increment block
(lines 752-761) is kept verbatim but can never fire.  The timeout path
(lines 784-805) sets a sentinel error and — unlike every other path — appends
no execution-log entry. -/
def code_validator_node (state : GraphState) (o : ValidatorOutcome) : GraphState :=
  match o with
  | .normal =>
      let validation_errors : List ErrItem := []
      let s₁ := { state with
        validation_errors := validation_errors
        current_node := "code_validator" }
      let s₂ :=
        if validation_errors ≠ [] then
          { s₁ with
            retry_count := { s₁.retry_count with
              validation_errors := s₁.retry_count.validation_errors + 1 }
            current_errors := .validation validation_errors }
        else s₁
      { s₂ with execution_log := s₂.execution_log ++ [⟨"code_validator", "completed"⟩] }
  | .timeout =>
      { state with
        validation_errors := [⟨"timeout", "Code validator timed out", "Validation took too long"⟩]
        current_node := "code_validator" }
  | .crash msg =>
      { state with
        current_node := "code_validator"
        error_message := some ("Code validator node error: " ++ msg)
        validation_errors := [⟨"validator_error", msg, "Code validator crashed"⟩]
        execution_log := state.execution_log ++ [⟨"code_validator", "error"⟩] }

/-- Shared tail of the two non-crash paths of `application_checker_node`
(graph_nodes.py:886-919): store the runtime errors, then either bump the
retry counter or set `success`. -/
def checkerTail (state : GraphState) (runtime_errors : List ErrItem) : GraphState :=
  let s₁ := { state with
    runtime_errors := runtime_errors
    current_node := "application_checker" }
  let s₂ :=
    if runtime_errors ≠ [] then
      { s₁ with
        retry_count := { s₁.retry_count with
          runtime_errors := s₁.retry_count.runtime_errors + 1 }
        current_errors := .runtime runtime_errors }
    else { s₁ with success := true }
  { s₂ with execution_log := s₂.execution_log ++ [⟨"application_checker", "completed"⟩] }

/-- `application_checker_node` (graph_nodes.py:832-935). -/
def application_checker_node (state : GraphState) (o : CheckerOutcome) : GraphState :=
  match o with
  | .filesChecked missing_files =>
      checkerTail state
        (if missing_files ≠ [] then
          [⟨"missing_files",
            "Missing essential files: " ++ String.intercalate ", " missing_files, ""⟩]
        else [])
  | .fileCheckFailed msg =>
      checkerTail state [⟨"file_check_failed", "Failed to check application files: " ++ msg, ""⟩]
  | .crash msg =>
      { state with
        current_node := "application_checker"
        error_message := some ("Application checker node error: " ++ msg)
        execution_log := state.execution_log ++ [⟨"application_checker", "error"⟩] }

/-! ### Routing (`agent/graph_nodes.py:938-1005`) -/

/-- `should_retry_builder_for_validation` (graph_nodes.py:938-970).  The
Python locals `validation_errors`, `retry_count`, `max_retries` and
`total_retries = sum(retry_count.values())` are inlined. -/
def should_retry_builder_for_validation (state : GraphState) : String :=
  if state.retry_count.validation_errors + state.retry_count.runtime_errors > 10 then
    "application_checker"
  else if state.validation_errors = [] then "application_checker"
  else if state.retry_count.validation_errors < state.max_retries then "builder"
  else "application_checker"

/-- `should_retry_builder_or_finish` (graph_nodes.py:973-1005).  The
exhausted branch mutates the state dict in place (`state["success"] = False`,
`state["error_message"] = ...`), so the function returns the possibly
modified state together with the decision string. -/
def should_retry_builder_or_finish (state : GraphState) : GraphState × String :=
  if state.retry_count.validation_errors + state.retry_count.runtime_errors > 10 then
    (state, "end")
  else if state.runtime_errors = [] then (state, "end")
  else if state.retry_count.runtime_errors < state.max_retries then (state, "builder")
  else
    ({ state with
        success := false
        error_message :=
          some ("Failed after " ++ toString state.max_retries ++ " retries for runtime errors") },
      "end")

/-! ### Workflow wiring (`agent/graph_builder.py`)

planner → builder → code_validator; `code_validator` routes via
`should_retry_builder_for_validation` to builder or application_checker;
`application_checker` routes via `should_retry_builder_or_finish` to builder
or END.  A `Trace` fixes the opaque outcome of the `i`-th invocation of each
stage; `runFrom` is fuelled because the source graph has no termination
guarantee of its own. -/

structure Trace where
  planner : PlannerOutcome
  builder : Nat → BuilderOutcome
  validator : Nat → ValidatorOutcome
  checker : Nat → CheckerOutcome

def runFrom (tr : Trace) (fuel b v c : Nat) (state : GraphState) : Option GraphState :=
  match fuel with
  | 0 => none
  | fuel + 1 =>
    let s₁ := builder_node state (tr.builder b)
    let s₂ := code_validator_node s₁ (tr.validator v)
    if should_retry_builder_for_validation s₂ = "builder" then
      runFrom tr fuel (b + 1) (v + 1) c s₂
    else
      let s₃ := application_checker_node s₂ (tr.checker c)
      let p := should_retry_builder_or_finish s₃
      if p.2 = "builder" then
        runFrom tr fuel (b + 1) (v + 1) (c + 1) p.1
      else
        some p.1

def run_workflow (tr : Trace) (fuel : Nat) (init : GraphState) : Option GraphState :=
  runFrom tr fuel 0 0 0 (planner_node init tr.planner)

/-- The initial pipeline state built in `Service.run_agent_stream`
(service.py:287-308). -/
def initial_state : GraphState :=
  { plan := none
    files_created := []
    files_modified := []
    current_errors := .empty
    validation_errors := []
    runtime_errors := []
    retry_count := { validation_errors := 0, runtime_errors := 0 }
    max_retries := 3
    current_node := ""
    execution_log := []
    success := false
    error_message := none }

/-- Number of Build invocations recorded in the log (every path of
`builder_node` appends exactly one `"builder"` entry). -/
def buildVisits (s : GraphState) : Nat :=
  s.execution_log.countP (fun e => e.node = "builder")

/-- Number of Check invocations recorded in the log. -/
def checkVisits (s : GraphState) : Nat :=
  s.execution_log.countP (fun e => e.node = "application_checker")

/-! ### Durable store and snapshot/restore engine (`agent/service.py`)

A sandbox file system and the per-project on-disk blob directory are both
association lists from (relative) path to content.  `service.py` stores each
snapshotted file under the path with `/` replaced by `_`
(`file_path.replace("/", "_")`) and records the successfully captured paths
in `metadata.json`. -/

def TEMPLATE_ID : String := "9jwfe1bxhxidt50x0a6o"

def sanitize (p : String) : String :=
  String.mk (p.data.map (fun c => if c = '/' then '_' else c))

/-- The on-disk state of one project directory: blob files keyed by their
sanitized name, plus the `files` list of `metadata.json` (absent when no
snapshot was ever taken). -/
structure ProjectDisk where
  blobs : List (String × String)
  metadata : Option (List String)
deriving DecidableEq

/-- `Service._restore_files_from_disk` (service.py:80-125): no project
directory or no metadata is a no-op; each listed path whose blob exists on
disk is written into the sandbox file system, per-file write failures are
caught and skipped.  (The final best-effort Vite-cache clean touches no
file.) -/
def restore_files_from_disk (disk : Option ProjectDisk) (writeFails : String → Bool)
    (fs : List (String × String)) : List (String × String) :=
  match disk with
  | none => fs
  | some d =>
    match d.metadata with
    | none => fs
    | some files =>
      files.foldl (fun acc file_path =>
        match lookupA d.blobs (sanitize file_path) with
        | some content => if writeFails file_path then acc else updateA acc file_path content
        | none => acc) fs

def paths_to_snapshot : List String := ["src", "public", "package.json", "index.html"]

/-- Paths found below a root directory by `find {path} -type f`
(enumeration order is the file-system order). -/
def filesUnder (fs : List (String × String)) (root : String) : List String :=
  (fs.map Prod.fst).filter (fun p => (root ++ "/").data.isPrefixOf p.data)

/-- The contribution of one snapshot root (service.py:183-217): the root
itself when `test -f` succeeds, otherwise the files `find` lists below it
that are non-empty and do not start with a dot. -/
def rootBlock (fs : List (String × String)) (root : String) : List String :=
  match lookupA fs root with
  | some _ => [root]
  | none => (filesUnder fs root).filter
      (fun f => !(f == "") && !(".".data.isPrefixOf f.data))

/-- The candidate paths enumerated by `snapshot_project_files`, in
enumeration order. -/
def snapshotCandidates (fs : List (String × String)) : List String :=
  paths_to_snapshot.foldr (fun root acc => rootBlock fs root ++ acc) []

/-- The paths whose read succeeded, i.e. the `files_stored` list that ends
up in `metadata.json`. -/
def storedPaths (fs : List (String × String)) (readFails : String → Bool) : List String :=
  (snapshotCandidates fs).filter (fun p => !(readFails p))

/-- `Service.snapshot_project_files` (service.py:163-231): every candidate
whose read succeeds is written to disk under its sanitized name (later
writes overwrite earlier ones that sanitize to the same name) and collected
into the `files` list of the metadata, which is written last. -/
def snapshot_project_files (fs : List (String × String)) (readFails : String → Bool) :
    ProjectDisk :=
  let files_stored := storedPaths fs readFails
  let blobs := files_stored.foldl
    (fun st p => updateA st (sanitize p) ((lookupA fs p).getD "")) []
  { blobs := blobs, metadata := some files_stored }

/-! ### Sandbox session manager (`agent/service.py:23-78`) -/

structure SandboxHandle where
  sbId : Nat
  template : String
  timeout : Nat
  fs : List (String × String)
deriving DecidableEq

/-- The mutable fields of `Service`: the registry of live sandboxes, the
last-access timestamps, plus a counter of sandboxes created so far (each
`AsyncSandbox.create` yields a fresh handle). -/
structure ServiceState where
  sandboxes : List (String × SandboxHandle)
  project_timestamps : List (String × Int)
  nextSbId : Nat
deriving DecidableEq

/-- Environment outcomes of the effectful calls inside `get_e2b_sandbox`:
whether `kill()` raises, whether `AsyncSandbox.create` raises, the on-disk
snapshot to restore from, and which per-file restore writes fail. -/
structure AcquireEnv where
  killFails : Bool
  createFails : Bool
  disk : Option ProjectDisk
  writeFails : String → Bool

def sandbox_timeout : Int := 1800

/-- The create path of `get_e2b_sandbox` (service.py:59-71): create from the
fixed template, register the handle and refresh the timestamp, then restore
the stored files into it.  (In the source the restore runs after the
registration and mutates the registered sandbox remotely; the pure embedding
computes the restored file system before registering.) -/
def create_sandbox (svc : ServiceState) (id : String) (now : Int) (env : AcquireEnv) :
    Except String (ServiceState × SandboxHandle) :=
  if env.createFails then .error "SandboxUnavailable"
  else
    let created : SandboxHandle :=
      { sbId := svc.nextSbId, template := TEMPLATE_ID, timeout := 1800, fs := [] }
    let restored :=
      { created with fs := restore_files_from_disk env.disk env.writeFails created.fs }
    .ok ({ svc with
            sandboxes := updateA svc.sandboxes id restored
            project_timestamps := updateA svc.project_timestamps id now
            nextSbId := svc.nextSbId + 1 }, restored)

/-- `Service.get_e2b_sandbox` (service.py:38-71).  Note that the stale-path
`kill()` (line 56) is not wrapped in any `try`, so a failing kill propagates
out of the function before the registry is touched. -/
def get_e2b_sandbox (svc : ServiceState) (id : String) (now : Int) (env : AcquireEnv) :
    Except String (ServiceState × SandboxHandle) :=
  match lookupA svc.sandboxes id with
  | some sb =>
    let last_access := (lookupA svc.project_timestamps id).getD 0
    let time_elapsed := now - last_access
    if time_elapsed < sandbox_timeout then
      let sb' := { sb with timeout := 1800 }
      .ok ({ svc with
              sandboxes := updateA svc.sandboxes id sb'
              project_timestamps := updateA svc.project_timestamps id now }, sb')
    else
      if env.killFails then .error "kill failed"
      else create_sandbox { svc with sandboxes := removeA svc.sandboxes id } id now env
  | none => create_sandbox svc id now env

/-! ### Interleaving model of two concurrent `get_e2b_sandbox` calls

`get_e2b_sandbox` suspends (`await`) between the registry membership check
and the registration of a freshly created sandbox, and `Service` takes no
lock.  Each task is reduced to its two atomic phases against the shared
registry entry of one project: (1) check the registry and decide, (2) have
`AsyncSandbox.create` return and register the result.  `created` counts
calls to `AsyncSandbox.create`. -/

inductive TaskPhase where
  | start
  | creating
  | finished (sbId : Nat)
deriving DecidableEq

structure RaceWorld where
  registry : Option Nat
  created : Nat
  task1 : TaskPhase
  task2 : TaskPhase
deriving DecidableEq

def stepTask (registry : Option Nat) (created : Nat) (ph : TaskPhase) :
    Option Nat × Nat × TaskPhase :=
  match ph with
  | .start =>
    match registry with
    | some h => (registry, created, .finished h)
    | none => (registry, created, .creating)
  | .creating => (some created, created + 1, .finished created)
  | .finished h => (registry, created, .finished h)

def raceStep (w : RaceWorld) (pick2 : Bool) : RaceWorld :=
  if pick2 then
    let r := stepTask w.registry w.created w.task2
    { registry := r.1, created := r.2.1, task1 := w.task1, task2 := r.2.2 }
  else
    let r := stepTask w.registry w.created w.task1
    { registry := r.1, created := r.2.1, task1 := r.2.2, task2 := w.task2 }

def runSchedule (w : RaceWorld) (sched : List Bool) : RaceWorld :=
  sched.foldl raceStep w

def raceInit : RaceWorld :=
  { registry := none, created := 0, task1 := .start, task2 := .start }

/-! ### Context memory store (`agent/tools.py:447-498`, `agent/service.py:127-161`) -/

structure ConvEntry where
  timestamp : Nat
  user_prompt : String
  success : Bool
  date : String
deriving DecidableEq

/-- The `context.json` payload.  `load_json_store` returns `{}` when the
file is absent, and every reader falls back to `""` / `[]` defaults, so a
missing store is embedded as the all-default record. -/
structure ProjectContext where
  semantic : String := ""
  procedural : String := ""
  episodic : String := ""
  last_updated : String := ""
  files_created : List String := []
  conversation_history : List ConvEntry := []
deriving DecidableEq

/-- The `save_context` tool (tools.py:447-498): load the existing context,
keep each stored field when the incoming string is empty (Python
`semantic or existing_context.get("semantic", "")`), refresh the timestamp,
carry `files_created` and `conversation_history` over, write back. -/
def save_context (store : Option ProjectContext) (semantic procedural episodic : String)
    (now : String) : ProjectContext :=
  let existing_context := store.getD {}
  { semantic := if semantic = "" then existing_context.semantic else semantic
    procedural := if procedural = "" then existing_context.procedural else procedural
    episodic := if episodic = "" then existing_context.episodic else episodic
    last_updated := now
    files_created := existing_context.files_created
    conversation_history := existing_context.conversation_history }

/-- `Service._save_conversation_history` (service.py:127-161): append one
entry, keep only the last 10 (`conversation_history[-10:]`), write back. -/
def save_conversation_history (ctx : ProjectContext) (user_prompt : String) (success : Bool)
    (timestamp : Nat) (date : String) : ProjectContext :=
  let conversation_history := ctx.conversation_history ++
    [{ timestamp := timestamp, user_prompt := user_prompt, success := success, date := date }]
  let conversation_history :=
    if conversation_history.length > 10 then
      conversation_history.drop (conversation_history.length - 10)
    else conversation_history
  { ctx with conversation_history := conversation_history }

/-- One `appendHistory` call with the fields of a prepared entry. -/
def appendHistory (ctx : ProjectContext) (e : ConvEntry) : ProjectContext :=
  save_conversation_history ctx e.user_prompt e.success e.timestamp e.date

/-- Iterated `save_context` calls with all-empty incoming fields. -/
def iterateSaveEmpty (now : String) : Nat → ProjectContext → ProjectContext
  | 0, c => c
  | n + 1, c => iterateSaveEmpty now n (save_context (some c) "" "" "" now)

/-- The last `n` elements of a list, in order. -/
def takeLast {α : Type} (n : Nat) (l : List α) : List α := l.drop (l.length - n)

/-! ### Concrete fixtures used by counterexamples and witnesses -/

/-- The Validate stage reports a non-empty validation-error list: every state
it returns has `validation_errors ≠ []`. -/
def reportsErrors (e : ValidatorOutcome) : Prop :=
  ∀ s : GraphState, (code_validator_node s e).validation_errors ≠ []

/-- A run in which Validate reports errors on its first three invocations
(here: times out) and none on the fourth, Build always completes, and the
final Check finds all main files. -/
def traceC1 : Trace :=
  { planner := .normal "plan"
    builder := fun _ => .completed []
    validator := fun i => if i < 3 then .timeout else .normal
    checker := fun _ => .filesChecked [] }

/-- The repair-loop scenario with arbitrary error-producing Validate
outcomes on the first three invocations. -/
def traceRepair (e₁ e₂ e₃ : ValidatorOutcome) : Trace :=
  { planner := .normal "plan"
    builder := fun _ => .completed []
    validator := fun i => if i = 0 then e₁ else if i = 1 then e₂ else if i = 2 then e₃ else .normal
    checker := fun _ => .filesChecked [] }

/-- A fully successful run: every stage completes, no errors anywhere. -/
def traceOK : Trace :=
  { planner := .normal "plan"
    builder := fun _ => .completed ["src/App.jsx"]
    validator := fun _ => .normal
    checker := fun _ => .filesChecked [] }

/-- A sandbox file system containing two distinct paths that sanitize to
the same on-disk blob name `src_a_b.js`. -/
def fsC7 : List (String × String) := [("src/a/b.js", "X"), ("src/a_b.js", "Y")]

/-- A collision-free sandbox file system. -/
def fsOK : List (String × String) := [("src/App.jsx", "A"), ("package.json", "P")]

/-- snapshot → destroy → restore into a fresh (empty) sandbox. -/
def roundTrip (fs : List (String × String)) (readFails writeFails : String → Bool) :
    List (String × String) :=
  restore_files_from_disk (some (snapshot_project_files fs readFails)) writeFails []

def sb0 : SandboxHandle := { sbId := 0, template := TEMPLATE_ID, timeout := 1800, fs := [] }

/-- Registry holding one sandbox for `"p"`, last accessed at time 0. -/
def svc0 : ServiceState :=
  { sandboxes := [("p", sb0)], project_timestamps := [("p", 0)], nextSbId := 1 }

/-- Environment in which destroying a sandbox fails. -/
def env0 : AcquireEnv :=
  { killFails := true, createFails := false, disk := none, writeFails := fun _ => false }

/-- Environment in which every effectful call succeeds and no snapshot
exists. -/
def envOK : AcquireEnv :=
  { killFails := false, createFails := false, disk := none, writeFails := fun _ => false }

/-- A previously saved context with non-empty memory fields. -/
def ctx0 : ProjectContext :=
  { semantic := "about", procedural := "how", episodic := "done" }

/-- Eleven conversations for one project. -/
def es11 : List ConvEntry :=
  (List.range 11).map (fun i => { timestamp := i, user_prompt := "p", success := true, date := "d" })

/-! ## Helper lemmas -/

/-! ### Association lists -/

theorem lookupA_updateA_self {α : Type} (l : List (String × α)) (k : String) (v : α) :
    lookupA (updateA l k v) k = some v := by
  induction l with
  | nil => simp [lookupA, updateA]
  | cons hd tl ih =>
    obtain ⟨k₂, v₂⟩ := hd
    by_cases h : k₂ = k <;> simp [lookupA, updateA, h, ih]

theorem lookupA_updateA_ne {α : Type} (l : List (String × α)) (k k' : String) (v : α)
    (h : k' ≠ k) : lookupA (updateA l k v) k' = lookupA l k' := by
  have hk : ¬ k = k' := fun hh => h hh.symm
  induction l with
  | nil => simp [lookupA, updateA, hk]
  | cons hd tl ih =>
    obtain ⟨k₂, v₂⟩ := hd
    by_cases hkk : k₂ = k
    · subst hkk
      simp [lookupA, updateA, hk]
    · simp [lookupA, updateA, hkk, ih]

theorem lookupA_isSome_of_mem_fst {α : Type} (l : List (String × α)) (p : String)
    (h : p ∈ l.map Prod.fst) : (lookupA l p).isSome := by
  induction l with
  | nil => simp at h
  | cons hd tl ih =>
    obtain ⟨k₂, v₂⟩ := hd
    by_cases hk : k₂ = p
    · simp [lookupA, hk]
    · simp only [List.map_cons, List.mem_cons] at h
      rcases h with h | h
      · exact absurd h.symm hk
      · simpa [lookupA, hk] using ih h

/-! ### Stage-node field facts -/

theorem planner_node_retry_count (s : GraphState) (o : PlannerOutcome) :
    (planner_node s o).retry_count = s.retry_count := by cases o <;> rfl

theorem planner_node_success (s : GraphState) (o : PlannerOutcome) :
    (planner_node s o).success = s.success := by cases o <;> rfl

theorem planner_node_max_retries (s : GraphState) (o : PlannerOutcome) :
    (planner_node s o).max_retries = s.max_retries := by cases o <;> rfl

theorem builder_node_retry_count (s : GraphState) (o : BuilderOutcome) :
    (builder_node s o).retry_count = s.retry_count := by cases o <;> rfl

theorem builder_node_success (s : GraphState) (o : BuilderOutcome) :
    (builder_node s o).success = s.success := by cases o <;> rfl

theorem builder_node_max_retries (s : GraphState) (o : BuilderOutcome) :
    (builder_node s o).max_retries = s.max_retries := by cases o <;> rfl

theorem code_validator_node_retry_count (s : GraphState) (o : ValidatorOutcome) :
    (code_validator_node s o).retry_count = s.retry_count := by
  cases o <;> rfl

theorem code_validator_node_success (s : GraphState) (o : ValidatorOutcome) :
    (code_validator_node s o).success = s.success := by cases o <;> rfl

theorem code_validator_node_max_retries (s : GraphState) (o : ValidatorOutcome) :
    (code_validator_node s o).max_retries = s.max_retries := by cases o <;> rfl

theorem checkerTail_retry_vc (s : GraphState) (errs : List ErrItem) :
    (checkerTail s errs).retry_count.validation_errors = s.retry_count.validation_errors := by
  unfold checkerTail
  split_ifs <;> rfl

theorem checkerTail_retry_rc (s : GraphState) (errs : List ErrItem) :
    s.retry_count.runtime_errors ≤ (checkerTail s errs).retry_count.runtime_errors ∧
    (checkerTail s errs).retry_count.runtime_errors ≤ s.retry_count.runtime_errors + 1 := by
  unfold checkerTail
  split_ifs <;> simp

theorem checkerTail_max_retries (s : GraphState) (errs : List ErrItem) :
    (checkerTail s errs).max_retries = s.max_retries := by
  unfold checkerTail
  split_ifs <;> rfl

theorem checkerTail_success (s : GraphState) (errs : List ErrItem) :
    (checkerTail s errs).success = s.success ∨
      ((checkerTail s errs).success = true ∧ (checkerTail s errs).runtime_errors = []) := by
  unfold checkerTail
  split_ifs with h
  · exact .inl rfl
  · exact .inr ⟨rfl, by simpa using h⟩

theorem application_checker_node_retry_vc (s : GraphState) (o : CheckerOutcome) :
    (application_checker_node s o).retry_count.validation_errors
      = s.retry_count.validation_errors := by
  cases o <;> simp [application_checker_node, checkerTail_retry_vc]

theorem application_checker_node_retry_rc (s : GraphState) (o : CheckerOutcome) :
    s.retry_count.runtime_errors ≤ (application_checker_node s o).retry_count.runtime_errors ∧
    (application_checker_node s o).retry_count.runtime_errors
      ≤ s.retry_count.runtime_errors + 1 := by
  cases o <;> simp [application_checker_node, checkerTail_retry_rc]

theorem application_checker_node_max_retries (s : GraphState) (o : CheckerOutcome) :
    (application_checker_node s o).max_retries = s.max_retries := by
  cases o <;> simp [application_checker_node, checkerTail_max_retries]

theorem application_checker_node_success_cases (s : GraphState) (o : CheckerOutcome) :
    (application_checker_node s o).success = s.success ∨
      ((application_checker_node s o).success = true ∧
        (application_checker_node s o).runtime_errors = []) := by
  cases o <;> simp [application_checker_node, checkerTail_success]

/-! ### Routing facts -/

theorem srbof_retry_count (s : GraphState) :
    ((should_retry_builder_or_finish s).1).retry_count = s.retry_count := by
  unfold should_retry_builder_or_finish
  split_ifs <;> rfl

theorem srbof_runtime_errors (s : GraphState) :
    ((should_retry_builder_or_finish s).1).runtime_errors = s.runtime_errors := by
  unfold should_retry_builder_or_finish
  split_ifs <;> rfl

theorem srbof_builder_state (s : GraphState)
    (h : (should_retry_builder_or_finish s).2 = "builder") :
    (should_retry_builder_or_finish s).1 = s ∧
    s.retry_count.runtime_errors < s.max_retries ∧ s.runtime_errors ≠ [] := by
  unfold should_retry_builder_or_finish at h ⊢
  split_ifs at h ⊢ with h₁ h₂ h₃
  · simp at h
  · simp at h
  · exact ⟨rfl, h₃, h₂⟩
  · simp at h

theorem srbof_end_success (s : GraphState)
    (h : ((should_retry_builder_or_finish s).1).success = true) :
    (should_retry_builder_or_finish s).1 = s ∧ s.success = true := by
  unfold should_retry_builder_or_finish at h ⊢
  split_ifs at h ⊢ <;> simp_all

/-! ### The run-level invariant

The retry counters start at `{validation_errors := 0, runtime_errors := 0}`
and `max_retries = 3`.  Along any run, `validation_errors` stays `0` (its
only increment site is dead code), `runtime_errors` grows monotonically and
re-enters the loop only while `< 3`, and `success = true` requires the last
Check to have found no runtime errors. -/

theorem runFrom_inv (tr : Trace) (fuel : Nat) :
    ∀ (b v c : Nat) (s f : GraphState),
      s.max_retries = 3 →
      s.retry_count.validation_errors = 0 →
      s.retry_count.runtime_errors ≤ 2 →
      s.success = false →
      runFrom tr fuel b v c s = some f →
      f.retry_count.validation_errors = 0 ∧
      s.retry_count.runtime_errors ≤ f.retry_count.runtime_errors ∧
      f.retry_count.runtime_errors ≤ 3 ∧
      (f.success = true → f.runtime_errors = []) := by
  induction fuel with
  | zero =>
    intro b v c s f _ _ _ _ h
    simp [runFrom] at h
  | succ fuel ih =>
    intro b v c s f hmax hvc hrc hsucc h
    rw [runFrom] at h
    simp only [] at h
    have h2retry : (code_validator_node (builder_node s (tr.builder b)) (tr.validator v)).retry_count
        = s.retry_count := by
      rw [code_validator_node_retry_count, builder_node_retry_count]
    have h2max : (code_validator_node (builder_node s (tr.builder b)) (tr.validator v)).max_retries
        = 3 := by
      rw [code_validator_node_max_retries, builder_node_max_retries]; exact hmax
    have h2succ : (code_validator_node (builder_node s (tr.builder b)) (tr.validator v)).success
        = false := by
      rw [code_validator_node_success, builder_node_success]; exact hsucc
    by_cases hroute :
        should_retry_builder_for_validation
          (code_validator_node (builder_node s (tr.builder b)) (tr.validator v)) = "builder"
    · rw [if_pos hroute] at h
      have := ih (b + 1) (v + 1) c _ f h2max (by rw [h2retry]; exact hvc)
        (by rw [h2retry]; exact hrc) h2succ h
      refine ⟨this.1, ?_, this.2.2⟩
      have := this.2.1
      rw [h2retry] at this
      exact this
    · rw [if_neg hroute] at h
      have h3vc : (application_checker_node
          (code_validator_node (builder_node s (tr.builder b)) (tr.validator v))
          (tr.checker c)).retry_count.validation_errors = 0 := by
        rw [application_checker_node_retry_vc, h2retry]; exact hvc
      have h3rc := application_checker_node_retry_rc
        (code_validator_node (builder_node s (tr.builder b)) (tr.validator v)) (tr.checker c)
      rw [h2retry] at h3rc
      have h3max : (application_checker_node
          (code_validator_node (builder_node s (tr.builder b)) (tr.validator v))
          (tr.checker c)).max_retries = 3 := by
        rw [application_checker_node_max_retries]; exact h2max
      by_cases hp2 : (should_retry_builder_or_finish
          (application_checker_node
            (code_validator_node (builder_node s (tr.builder b)) (tr.validator v))
            (tr.checker c))).2 = "builder"
      · rw [if_pos hp2] at h
        obtain ⟨hpeq, hlt, hne⟩ := srbof_builder_state _ hp2
        have h3succ : (application_checker_node
            (code_validator_node (builder_node s (tr.builder b)) (tr.validator v))
            (tr.checker c)).success = false := by
          rcases application_checker_node_success_cases
            (code_validator_node (builder_node s (tr.builder b)) (tr.validator v))
            (tr.checker c) with hc | hc
          · rw [hc]; exact h2succ
          · exact absurd hc.2 hne
        rw [hpeq] at h
        rw [h3max] at hlt
        have := ih (b + 1) (v + 1) (c + 1) _ f h3max h3vc (by omega) h3succ h
        exact ⟨this.1, by omega, this.2.2.1, this.2.2.2⟩
      · rw [if_neg hp2] at h
        have hf : f = (should_retry_builder_or_finish
            (application_checker_node
              (code_validator_node (builder_node s (tr.builder b)) (tr.validator v))
              (tr.checker c))).1 := by
          exact (Option.some.inj h).symm
        subst hf
        refine ⟨?_, ?_, ?_, ?_⟩
        · rw [srbof_retry_count]; exact h3vc
        · rw [srbof_retry_count]; omega
        · rw [srbof_retry_count]; omega
        · intro hsf
          obtain ⟨hpeq, hs3succ⟩ := srbof_end_success _ hsf
          rcases application_checker_node_success_cases
            (code_validator_node (builder_node s (tr.builder b)) (tr.validator v))
            (tr.checker c) with hc | hc
          · rw [hc, h2succ] at hs3succ
            exact absurd hs3succ (by simp)
          · rw [hpeq]
            exact hc.2

/-! ## Claims -/

/-- C2: every invocation of the Validate stage (`code_validator_node`) that
completes without raising an exception and without timing out returns a
state whose `validation_errors` list is empty and whose `retry_count` is
unchanged; a non-empty `validation_errors` list can only be produced by the
timeout path or the exception path, and neither of those paths increments
`retry_count["validation_errors"]` (in fact no path of the node changes
`retry_count` at all). -/
theorem C2_validator_normal_path (s : GraphState) (o : ValidatorOutcome) :
    (code_validator_node s o).retry_count = s.retry_count
    ∧ ((code_validator_node s o).validation_errors = [] ↔ o = .normal) := by
  refine ⟨code_validator_node_retry_count s o, ?_⟩
  cases o <;> simp [code_validator_node]

/-- C2 witness: the theorem applied at the normal and the timeout outcome of
the initial state. -/
theorem C2_validator_normal_path_witness :
    (code_validator_node initial_state .normal).validation_errors = []
    ∧ (code_validator_node initial_state .timeout).retry_count = initial_state.retry_count :=
  ⟨(C2_validator_normal_path initial_state .normal).2.mpr rfl,
   (C2_validator_normal_path initial_state .timeout).1⟩

/-- C3 counterexample: the claim says a stage exception is converted into an
empty/neutral result (e.g. an empty error list), but the exception path of
the Validate stage returns a non-empty `validation_errors` list, which the
orchestrator then routes back to Build as errors to repair rather than
treating as neutral. -/
theorem C3_counterexample :
    (code_validator_node initial_state (.crash "boom")).validation_errors ≠ []
    ∧ should_retry_builder_for_validation (code_validator_node initial_state (.crash "boom"))
        = "builder" := by
  exact ⟨by simp [code_validator_node], rfl⟩

/-- C3 (amended): an exception raised inside any stage is caught at the
stage boundary and an `execution_log` entry with status `"error"` is
appended; Plan, Build and Check return neutral results (Plan and Check leave
their error lists untouched, Build's agent-exception path returns empty file
lists), but the Validate stage's exception path returns a one-element
`validation_errors` list recording the crash rather than an empty list.  No
exception escapes a stage boundary (each node is a total function). -/
theorem C3_stage_exceptions (s : GraphState) (msg : String) :
    (planner_node s (.crash msg)).execution_log
        = s.execution_log ++ [⟨"planner", "error"⟩]
    ∧ (planner_node s (.crash msg)).validation_errors = s.validation_errors
    ∧ (planner_node s (.crash msg)).runtime_errors = s.runtime_errors
    ∧ (builder_node s (.crash msg)).execution_log
        = s.execution_log ++ [⟨"builder", "error"⟩]
    ∧ (builder_node s (.agentError msg)).execution_log
        = s.execution_log ++ [⟨"builder", "error"⟩]
    ∧ (builder_node s (.agentError msg)).files_created = []
    ∧ (code_validator_node s (.crash msg)).execution_log
        = s.execution_log ++ [⟨"code_validator", "error"⟩]
    ∧ (code_validator_node s (.crash msg)).validation_errors
        = [⟨"validator_error", msg, "Code validator crashed"⟩]
    ∧ (application_checker_node s (.crash msg)).execution_log
        = s.execution_log ++ [⟨"application_checker", "error"⟩]
    ∧ (application_checker_node s (.crash msg)).runtime_errors = s.runtime_errors
    ∧ (application_checker_node s (.crash msg)).success = s.success := by
  refine ⟨rfl, rfl, rfl, rfl, rfl, rfl, rfl, rfl, rfl, rfl, rfl⟩

/-- C8: with no lock around the registry, two concurrent
`get_e2b_sandbox("p")` calls that interleave as check/check/create/create
both pass the `id in self.sandboxes` test and both call
`AsyncSandbox.create`: two sandboxes are created, the second registration
overwrites the first, and the first handle is never killed.  A sequential
schedule creates exactly one. -/
theorem C8_acquire_race :
    (runSchedule raceInit [false, true, false, true]).created = 2
    ∧ (runSchedule raceInit [false, true, false, true]).task1 = .finished 0
    ∧ (runSchedule raceInit [false, true, false, true]).task2 = .finished 1
    ∧ (runSchedule raceInit [false, true, false, true]).registry = some 1
    ∧ (runSchedule raceInit [false, false, true, true]).created = 1
    ∧ (runSchedule raceInit [false, false, true, true]).task2
        = (runSchedule raceInit [false, false, true, true]).task1 := by
  exact ⟨rfl, rfl, rfl, rfl, rfl, rfl⟩

/-- C9: `save_context` with an empty string for a field preserves the
previously stored value of that field, a non-empty incoming value
overwrites it, and saving with all-empty fields any number of times never
changes the three memory fields. -/
theorem C9_context_merge (store : Option ProjectContext) (s p e now : String) :
    (save_context store "" p e now).semantic = (store.getD {}).semantic
    ∧ (save_context store s "" e now).procedural = (store.getD {}).procedural
    ∧ (save_context store s p "" now).episodic = (store.getD {}).episodic
    ∧ (s ≠ "" → (save_context store s p e now).semantic = s)
    ∧ (p ≠ "" → (save_context store s p e now).procedural = p)
    ∧ (e ≠ "" → (save_context store s p e now).episodic = e)
    ∧ (∀ (n : Nat) (c : ProjectContext),
        (iterateSaveEmpty now n c).semantic = c.semantic
        ∧ (iterateSaveEmpty now n c).procedural = c.procedural
        ∧ (iterateSaveEmpty now n c).episodic = c.episodic) := by
  refine ⟨rfl, rfl, rfl, ?_, ?_, ?_, ?_⟩
  · intro h; simp [save_context, h]
  · intro h; simp [save_context, h]
  · intro h; simp [save_context, h]
  · intro n
    induction n with
    | zero => exact fun c => ⟨rfl, rfl, rfl⟩
    | succ n ih => exact fun c => ih (save_context (some c) "" "" "" now)

/-- C4: both retry counters start at zero; no stage or routing function ever
decreases a counter (Plan, Build, Validate and the Check routing leave
`retry_count` unchanged, the Check node can only increment); and in every
terminated run each per-category counter is at most `max_retries = 3` and
their sum is at most the global ceiling of 10. -/
theorem C4_retry_monotonicity :
    initial_state.retry_count = { validation_errors := 0, runtime_errors := 0 }
    ∧ (∀ (s : GraphState) (o : PlannerOutcome), (planner_node s o).retry_count = s.retry_count)
    ∧ (∀ (s : GraphState) (o : BuilderOutcome), (builder_node s o).retry_count = s.retry_count)
    ∧ (∀ (s : GraphState) (o : ValidatorOutcome),
        (code_validator_node s o).retry_count = s.retry_count)
    ∧ (∀ (s : GraphState) (o : CheckerOutcome),
        s.retry_count.validation_errors
            ≤ (application_checker_node s o).retry_count.validation_errors
        ∧ s.retry_count.runtime_errors
            ≤ (application_checker_node s o).retry_count.runtime_errors)
    ∧ (∀ s : GraphState, ((should_retry_builder_or_finish s).1).retry_count = s.retry_count)
    ∧ (∀ (tr : Trace) (fuel : Nat) (f : GraphState),
        run_workflow tr fuel initial_state = some f →
        f.retry_count.validation_errors ≤ 3
        ∧ f.retry_count.runtime_errors ≤ 3
        ∧ f.retry_count.validation_errors + f.retry_count.runtime_errors ≤ 10) := by
  refine ⟨rfl, planner_node_retry_count, builder_node_retry_count,
    code_validator_node_retry_count, ?_, srbof_retry_count, ?_⟩
  · intro s o
    exact ⟨le_of_eq (application_checker_node_retry_vc s o).symm,
      (application_checker_node_retry_rc s o).1⟩
  · intro tr fuel f h
    unfold run_workflow at h
    have hinv := runFrom_inv tr fuel 0 0 0 (planner_node initial_state tr.planner) f
      (by rw [planner_node_max_retries]; rfl)
      (by rw [planner_node_retry_count]; rfl)
      (by rw [planner_node_retry_count]; exact Nat.zero_le 2)
      (by rw [planner_node_success]; rfl) h
    refine ⟨by omega, by omega, by omega⟩

/-- C4 witness: the run-level bound applied to a concrete successful run. -/
theorem C4_retry_monotonicity_witness :
    ((run_workflow traceOK 5 initial_state).getD initial_state).retry_count.validation_errors ≤ 3
    ∧ ((run_workflow traceOK 5 initial_state).getD initial_state).retry_count.runtime_errors ≤ 3
    ∧ ((run_workflow traceOK 5 initial_state).getD initial_state).retry_count.validation_errors
        + ((run_workflow traceOK 5 initial_state).getD initial_state).retry_count.runtime_errors
        ≤ 10 :=
  C4_retry_monotonicity.2.2.2.2.2.2 traceOK 5 _ rfl

/-- C5: `success` is initially `false`; Plan, Build and Validate never touch
it; the Check node sets it to `true` only together with an empty
runtime-error list; and every terminated run that ends with
`success = true` has an empty runtime-error list from its last Check
invocation. -/
theorem C5_success_flag :
    initial_state.success = false
    ∧ (∀ (s : GraphState) (o : PlannerOutcome), (planner_node s o).success = s.success)
    ∧ (∀ (s : GraphState) (o : BuilderOutcome), (builder_node s o).success = s.success)
    ∧ (∀ (s : GraphState) (o : ValidatorOutcome), (code_validator_node s o).success = s.success)
    ∧ (∀ (s : GraphState) (o : CheckerOutcome),
        (application_checker_node s o).success = true →
        (application_checker_node s o).runtime_errors = [] ∨ s.success = true)
    ∧ (∀ (tr : Trace) (fuel : Nat) (f : GraphState),
        run_workflow tr fuel initial_state = some f →
        f.success = true → f.runtime_errors = []) := by
  refine ⟨rfl, planner_node_success, builder_node_success, code_validator_node_success, ?_, ?_⟩
  · intro s o h
    rcases application_checker_node_success_cases s o with hc | hc
    · rw [hc] at h
      exact .inr h
    · exact .inl hc.2
  · intro tr fuel f h
    unfold run_workflow at h
    exact (runFrom_inv tr fuel 0 0 0 (planner_node initial_state tr.planner) f
      (by rw [planner_node_max_retries]; rfl)
      (by rw [planner_node_retry_count]; rfl)
      (by rw [planner_node_retry_count]; exact Nat.zero_le 2)
      (by rw [planner_node_success]; rfl) h).2.2.2

/-- C5 witness: a concrete successful run ends with `success = true` and an
empty runtime-error list. -/
theorem C5_success_flag_witness :
    ((run_workflow traceOK 5 initial_state).getD initial_state).success = true
    ∧ ((run_workflow traceOK 5 initial_state).getD initial_state).runtime_errors = [] := by
  refine ⟨by decide, ?_⟩
  exact C5_success_flag.2.2.2.2.2 traceOK 5 _ rfl (by decide)

/-- C9 witness: concrete saves against a stored context with non-empty
fields. -/
theorem C9_context_merge_witness :
    (save_context (some ctx0) "" "" "" "t").semantic = "about"
    ∧ (save_context (some ctx0) "new" "" "" "t").semantic = "new"
    ∧ (iterateSaveEmpty "t" 5 ctx0).episodic = "done" := by
  refine ⟨(C9_context_merge (some ctx0) "" "" "" "t").1, ?_, ?_⟩
  · exact (C9_context_merge (some ctx0) "new" "" "" "t").2.2.2.1 (by decide)
  · exact ((C9_context_merge (some ctx0) "" "" "" "t").2.2.2.2.2.2 5 ctx0).2.2

/-! ### History-bound helpers (C10) -/

theorem takeLast_append_takeLast {α : Type} (n : Nat) (l es : List α) :
    takeLast n (takeLast n l ++ es) = takeLast n (l ++ es) := by
  rcases le_or_lt n l.length with h | h
  · unfold takeLast
    have hlen : (l.drop (l.length - n)).length = n := by
      rw [List.length_drop]; omega
    simp only [List.length_append, hlen]
    have h1 : n + es.length - n = es.length := by omega
    have h2 : l.length + es.length - n = (l.length - n) + es.length := by omega
    rw [h1, h2, ← List.drop_append_of_le_length (show l.length - n ≤ l.length by omega),
      List.drop_drop]
  · have hl : takeLast n l = l := by
      unfold takeLast
      have h0 : l.length - n = 0 := by omega
      rw [h0, List.drop_zero]
    rw [hl]

theorem takeLast_length_le {α : Type} (n : Nat) (l : List α) : (takeLast n l).length ≤ n := by
  unfold takeLast
  rw [List.length_drop]
  omega

theorem appendHistory_history (c : ProjectContext) (e : ConvEntry) :
    (appendHistory c e).conversation_history
      = takeLast 10 (c.conversation_history ++ [e]) := by
  show (if (c.conversation_history ++ [e]).length > 10 then
      (c.conversation_history ++ [e]).drop ((c.conversation_history ++ [e]).length - 10)
    else c.conversation_history ++ [e])
    = takeLast 10 (c.conversation_history ++ [e])
  by_cases hlen : (c.conversation_history ++ [e]).length > 10
  · rw [if_pos hlen]; rfl
  · rw [if_neg hlen]
    unfold takeLast
    have h0 : (c.conversation_history ++ [e]).length - 10 = 0 := by omega
    rw [h0, List.drop_zero]

theorem foldl_appendHistory (es : List ConvEntry) :
    ∀ c : ProjectContext, c.conversation_history.length ≤ 10 →
      (es.foldl appendHistory c).conversation_history
        = takeLast 10 (c.conversation_history ++ es) := by
  induction es with
  | nil =>
    intro c h
    rw [List.foldl_nil]
    unfold takeLast
    have h0 : (c.conversation_history ++ []).length - 10 = 0 := by
      rw [List.append_nil]; omega
    rw [h0, List.drop_zero, List.append_nil]
  | cons e es ih =>
    intro c h
    rw [List.foldl_cons]
    rw [ih (appendHistory c e)
      (by rw [appendHistory_history]; exact takeLast_length_le 10 _)]
    rw [appendHistory_history, takeLast_append_takeLast]
    rw [List.append_assoc]
    rfl

/-- C10: starting from a project with no stored history, after more than 10
appendHistory calls the stored conversation history is exactly the last 10
entries in append order (the oldest entries are evicted first) and has
length exactly 10. -/
theorem C10_history_bound (es : List ConvEntry) (c : ProjectContext)
    (hlen : es.length > 10) (hc : c.conversation_history = []) :
    (es.foldl appendHistory c).conversation_history = es.drop (es.length - 10)
    ∧ (es.foldl appendHistory c).conversation_history.length = 10 := by
  have h := foldl_appendHistory es c (by rw [hc]; simp)
  rw [hc, List.nil_append] at h
  constructor
  · rw [h]; rfl
  · rw [h]
    unfold takeLast
    rw [List.length_drop]
    omega

/-- C10 witness: eleven history entries leave exactly the last ten. -/
theorem C10_history_bound_witness :
    (es11.foldl appendHistory ({} : ProjectContext)).conversation_history
        = es11.drop (es11.length - 10)
    ∧ (es11.foldl appendHistory ({} : ProjectContext)).conversation_history.length = 10 :=
  C10_history_bound es11 {} (by decide) rfl

/-- C6 (amended): `get_e2b_sandbox` returns the existing handle with the
timeout extended and `lastAccessTime` refreshed (and creates nothing) when a
live session exists within `idleTimeout` of its last access; on the stale
path it destroys the old handle first, but a failure of that destroy
propagates to the caller (the `kill()` is not guarded) instead of being
logged and skipped; otherwise it creates exactly one new sandbox from the
fixed template, restores the files of the most recent snapshot if one
exists, refreshes the timestamp, and registers the new handle as the live
session; a failing create surfaces as `SandboxUnavailable`. -/
theorem C6_acquire (svc : ServiceState) (id : String) (now : Int) (env : AcquireEnv) :
    (∀ sb, lookupA svc.sandboxes id = some sb →
      now - (lookupA svc.project_timestamps id).getD 0 < sandbox_timeout →
      ∃ svc' sb', get_e2b_sandbox svc id now env = .ok (svc', sb')
        ∧ sb'.sbId = sb.sbId
        ∧ sb'.timeout = 1800
        ∧ lookupA svc'.project_timestamps id = some now
        ∧ lookupA svc'.sandboxes id = some sb'
        ∧ svc'.nextSbId = svc.nextSbId)
    ∧ (∀ sb, lookupA svc.sandboxes id = some sb →
        ¬ now - (lookupA svc.project_timestamps id).getD 0 < sandbox_timeout →
        env.killFails = true →
        get_e2b_sandbox svc id now env = .error "kill failed")
    ∧ (lookupA svc.sandboxes id = none → env.createFails = false →
      ∃ svc' sb', get_e2b_sandbox svc id now env = .ok (svc', sb')
        ∧ sb'.sbId = svc.nextSbId
        ∧ sb'.template = TEMPLATE_ID
        ∧ sb'.fs = restore_files_from_disk env.disk env.writeFails []
        ∧ lookupA svc'.sandboxes id = some sb'
        ∧ lookupA svc'.project_timestamps id = some now
        ∧ svc'.nextSbId = svc.nextSbId + 1)
    ∧ (∀ sb, lookupA svc.sandboxes id = some sb →
        ¬ now - (lookupA svc.project_timestamps id).getD 0 < sandbox_timeout →
        env.killFails = false → env.createFails = false →
        ∃ svc' sb', get_e2b_sandbox svc id now env = .ok (svc', sb')
          ∧ sb'.sbId = svc.nextSbId
          ∧ sb'.template = TEMPLATE_ID
          ∧ sb'.fs = restore_files_from_disk env.disk env.writeFails []
          ∧ lookupA svc'.sandboxes id = some sb'
          ∧ lookupA svc'.project_timestamps id = some now
          ∧ svc'.nextSbId = svc.nextSbId + 1)
    ∧ ((lookupA svc.sandboxes id = none ∨
        (∃ sb, lookupA svc.sandboxes id = some sb ∧
          ¬ now - (lookupA svc.project_timestamps id).getD 0 < sandbox_timeout ∧
          env.killFails = false)) →
        env.createFails = true →
        get_e2b_sandbox svc id now env = .error "SandboxUnavailable") := by
  refine ⟨?_, ?_, ?_, ?_, ?_⟩
  · intro sb hsb hfresh
    refine ⟨{ svc with
        sandboxes := updateA svc.sandboxes id { sb with timeout := 1800 },
        project_timestamps := updateA svc.project_timestamps id now },
      { sb with timeout := 1800 }, ?_, rfl, rfl,
      lookupA_updateA_self _ _ _, lookupA_updateA_self _ _ _, rfl⟩
    simp only [get_e2b_sandbox, hsb]
    rw [if_pos hfresh]
  · intro sb hsb hstale hkill
    simp only [get_e2b_sandbox, hsb]
    rw [if_neg hstale, hkill]
    rfl
  · intro hnone hcreate
    refine ⟨{ svc with
        sandboxes := updateA svc.sandboxes id
          { sbId := svc.nextSbId, template := TEMPLATE_ID, timeout := 1800,
            fs := restore_files_from_disk env.disk env.writeFails [] },
        project_timestamps := updateA svc.project_timestamps id now,
        nextSbId := svc.nextSbId + 1 },
      { sbId := svc.nextSbId, template := TEMPLATE_ID, timeout := 1800,
        fs := restore_files_from_disk env.disk env.writeFails [] }, ?_, rfl, rfl, rfl,
      lookupA_updateA_self _ _ _, lookupA_updateA_self _ _ _, rfl⟩
    simp only [get_e2b_sandbox, hnone, create_sandbox, hcreate]
    rfl
  · intro sb hsb hstale hkill hcreate
    refine ⟨{ svc with
        sandboxes := updateA (removeA svc.sandboxes id) id
          { sbId := svc.nextSbId, template := TEMPLATE_ID, timeout := 1800,
            fs := restore_files_from_disk env.disk env.writeFails [] },
        project_timestamps := updateA svc.project_timestamps id now,
        nextSbId := svc.nextSbId + 1 },
      { sbId := svc.nextSbId, template := TEMPLATE_ID, timeout := 1800,
        fs := restore_files_from_disk env.disk env.writeFails [] }, ?_, rfl, rfl, rfl,
      lookupA_updateA_self _ _ _, lookupA_updateA_self _ _ _, rfl⟩
    simp only [get_e2b_sandbox, hsb, create_sandbox, hcreate]
    rw [if_neg hstale, hkill]
    rfl
  · intro hcase hcreate
    rcases hcase with hnone | ⟨sb, hsb, hstale, hkill⟩
    · simp only [get_e2b_sandbox, hnone, create_sandbox, hcreate]
      rfl
    · simp only [get_e2b_sandbox, hsb, create_sandbox, hcreate]
      rw [if_neg hstale, hkill]
      rfl

/-- C6 counterexample: with a session for `"p"` last accessed at time 0 and
`now = 1800` (expired) and a failing `kill()`, `get_e2b_sandbox` raises
instead of logging the destroy failure and creating a new sandbox: the
destroy is fatal, not best-effort. -/
theorem C6_counterexample :
    get_e2b_sandbox svc0 "p" 1800 env0 = .error "kill failed"
    ∧ (get_e2b_sandbox svc0 "p" 1800 env0).isOk = false := ⟨rfl, rfl⟩

/-- C6 witness: a live fresh session is reused, and the failing-destroy path
raises. -/
theorem C6_acquire_witness :
    (get_e2b_sandbox svc0 "p" 10 envOK).isOk = true
    ∧ get_e2b_sandbox svc0 "p" 1800 env0 = .error "kill failed" := by
  constructor
  · obtain ⟨svc', sb', heq, -⟩ := (C6_acquire svc0 "p" 10 envOK).1 sb0 rfl (by decide)
    rw [heq]
    rfl
  · exact (C6_acquire svc0 "p" 1800 env0).2.1 sb0 rfl (by decide) rfl

/-! ### Snapshot/restore helpers (C7) -/

theorem mem_foldr_rootBlock (fs : List (String × String)) (p : String) :
    ∀ roots : List String,
      p ∈ roots.foldr (fun root acc => rootBlock fs root ++ acc) [] →
      ∃ r, p ∈ rootBlock fs r := by
  intro roots
  induction roots with
  | nil => intro h; simp at h
  | cons a rs ih =>
    intro h
    simp only [List.foldr_cons, List.mem_append] at h
    rcases h with h | h
    · exact ⟨a, h⟩
    · exact ih h

/-- Every snapshotted candidate path exists in the sandbox file system. -/
theorem mem_snapshotCandidates_isSome (fs : List (String × String)) (p : String)
    (h : p ∈ snapshotCandidates fs) : (lookupA fs p).isSome := by
  obtain ⟨r, hr⟩ := mem_foldr_rootBlock fs p paths_to_snapshot h
  unfold rootBlock at hr
  cases hcase : lookupA fs r with
  | some v =>
    rw [hcase] at hr
    simp at hr
    subst hr
    rw [hcase]
    rfl
  | none =>
    rw [hcase] at hr
    have hu : p ∈ filesUnder fs r := (List.mem_filter.mp hr).1
    unfold filesUnder at hu
    exact lookupA_isSome_of_mem_fst fs p (List.mem_filter.mp hu).1

theorem mem_storedPaths_isSome (fs : List (String × String)) (readFails : String → Bool)
    (p : String) (h : p ∈ storedPaths fs readFails) : (lookupA fs p).isSome :=
  mem_snapshotCandidates_isSome fs p (List.mem_filter.mp h).1

theorem lookupA_foldl_update_keep (fs : List (String × String)) (ps : List String) :
    ∀ (st : List (String × String)) (key c : String),
      (∀ q ∈ ps, sanitize q = key → (lookupA fs q).getD "" = c) →
      lookupA st key = some c →
      lookupA (ps.foldl (fun st p => updateA st (sanitize p) ((lookupA fs p).getD "")) st) key
        = some c := by
  induction ps with
  | nil => intro st key c _ h; simpa using h
  | cons a ps ih =>
    intro st key c hall h
    rw [List.foldl_cons]
    refine ih _ _ _ (fun q hq => hall q (List.mem_cons_of_mem a hq)) ?_
    by_cases hk : sanitize a = key
    · rw [hk, lookupA_updateA_self]
      rw [hall a (List.mem_cons_self a ps) hk]
    · rw [lookupA_updateA_ne st (sanitize a) key _ (fun hh => hk hh.symm)]
      exact h

/-- The blob store built by the snapshot maps the sanitized name of a stored
path to that path's sandbox content, provided all stored paths with the same
sanitized name carry the same content. -/
theorem lookupA_blobs (fs : List (String × String)) (ps : List String) (p : String) :
    ∀ st : List (String × String), p ∈ ps →
      (∀ q ∈ ps, sanitize q = sanitize p → (lookupA fs q).getD "" = (lookupA fs p).getD "") →
      lookupA (ps.foldl (fun st q => updateA st (sanitize q) ((lookupA fs q).getD "")) st)
          (sanitize p)
        = some ((lookupA fs p).getD "") := by
  induction ps with
  | nil => intro st h; simp at h
  | cons a ps ih =>
    intro st hmem hall
    rw [List.foldl_cons]
    rcases List.mem_cons.mp hmem with heq | hmem2
    · subst heq
      refine lookupA_foldl_update_keep fs ps _ _ _
        (fun q hq hsq => hall q (List.mem_cons_of_mem p hq) hsq) ?_
      exact lookupA_updateA_self st (sanitize p) _
    · exact ih _ hmem2 (fun q hq => hall q (List.mem_cons_of_mem a hq))

/-- Everything the restore loop writes comes from a blob keyed by the
sanitized name of a metadata path. -/
theorem lookupA_restore_fold (blobs : List (String × String)) (wf : String → Bool)
    (files : List String) :
    ∀ (fs0 : List (String × String)) (key c : String),
      lookupA (files.foldl (fun acc q =>
        match lookupA blobs (sanitize q) with
        | some content => if wf q then acc else updateA acc q content
        | none => acc) fs0) key = some c →
      lookupA fs0 key = some c ∨ (key ∈ files ∧ lookupA blobs (sanitize key) = some c) := by
  induction files with
  | nil =>
    intro fs0 key c h
    exact .inl (by simpa using h)
  | cons q files ih =>
    intro fs0 key c h
    rw [List.foldl_cons] at h
    cases hb : lookupA blobs (sanitize q) with
    | none =>
      simp only [hb] at h
      rcases ih _ _ _ h with h2 | h2
      · exact .inl h2
      · exact .inr ⟨List.mem_cons_of_mem _ h2.1, h2.2⟩
    | some content =>
      simp only [hb] at h
      by_cases hw : wf q
      · rw [if_pos hw] at h
        rcases ih _ _ _ h with h2 | h2
        · exact .inl h2
        · exact .inr ⟨List.mem_cons_of_mem _ h2.1, h2.2⟩
      · rw [if_neg hw] at h
        rcases ih _ _ _ h with h2 | h2
        · by_cases hkq : key = q
          · subst hkq
            rw [lookupA_updateA_self] at h2
            refine .inr ⟨List.mem_cons_self key files, ?_⟩
            rw [hb, h2]
          · rw [lookupA_updateA_ne _ _ _ _ hkq] at h2
            exact .inl h2
        · exact .inr ⟨List.mem_cons_of_mem _ h2.1, h2.2⟩

/-- C7 (amended): snapshot, destroy, restore into a fresh sandbox yields a
file set contained in the original with byte-identical contents — provided
the path sanitization (`/` ↦ `_`) is injective on the snapshotted paths.
Without that proviso two distinct paths can share one blob and the earlier
one is restored with the later one's contents (see the counterexample). -/
theorem C7_roundtrip (fs : List (String × String)) (readFails writeFails : String → Bool)
    (hinj : ∀ p ∈ storedPaths fs readFails, ∀ q ∈ storedPaths fs readFails,
      sanitize p = sanitize q → p = q) :
    ∀ (p c : String), lookupA (roundTrip fs readFails writeFails) p = some c →
      lookupA fs p = some c := by
  intro p c h
  unfold roundTrip restore_files_from_disk snapshot_project_files at h
  simp only [] at h
  rcases lookupA_restore_fold _ _ _ _ _ _ h with h2 | ⟨hmem, hblob⟩
  · simp [lookupA] at h2
  · have hb := lookupA_blobs fs (storedPaths fs readFails) p [] hmem
      (fun q hq hsq => by rw [hinj q hq p hmem hsq])
    rw [hb] at hblob
    obtain ⟨d, hd⟩ := Option.isSome_iff_exists.mp (mem_storedPaths_isSome fs readFails p hmem)
    rw [hd]
    rw [hd] at hblob
    simpa using hblob

/-- C7 counterexample: `src/a/b.js` and `src/a_b.js` both sanitize to
`src_a_b.js`; after the round trip, `src/a/b.js` comes back with
`src/a_b.js`'s contents — not byte-identical to the original. -/
theorem C7_counterexample :
    lookupA (roundTrip fsC7 (fun _ => false) (fun _ => false)) "src/a/b.js" = some "Y"
    ∧ lookupA fsC7 "src/a/b.js" = some "X"
    ∧ ("Y" : String) ≠ "X" := by
  refine ⟨by decide, by decide, by decide⟩

/-- C7 witness: the round trip on a collision-free file system restores the
original contents. -/
theorem C7_roundtrip_witness :
    lookupA (roundTrip fsOK (fun _ => false) (fun _ => false)) "src/App.jsx" = some "A"
    ∧ lookupA fsOK "src/App.jsx" = some "A" := by
  refine ⟨by decide, ?_⟩
  exact C7_roundtrip fsOK (fun _ => false) (fun _ => false) (by decide) "src/App.jsx" "A"
    (by decide)

/-- C1 counterexample: in the run `traceC1` the Validate stage returns a
non-empty validation-error list on its first three invocations (the timeout
sentinel) and an empty one on the fourth; the pipeline does re-enter Build 3
extra times (4 Build visits) and then proceeds to Check — but
`retry_count["validation_errors"]` ends at 0, not 3: the only paths that
produce a non-empty list (timeout, exception) never increment the counter,
and the increment in the normal path is dead code. -/
theorem C1_counterexample :
    (code_validator_node initial_state .timeout).validation_errors ≠ []
    ∧ (run_workflow traceC1 10 initial_state).map
        (fun f => (buildVisits f, checkVisits f, f.retry_count.validation_errors))
        = some (4, 1, 0)
    ∧ (run_workflow traceC1 10 initial_state).map (fun f => f.retry_count.validation_errors)
        ≠ some 3 := by
  refine ⟨by decide, by decide, by decide⟩

/-- C1 (amended): for a run in which the Validate stage reports a non-empty
validation-error list on each of its first three invocations and an empty
list on the fourth, the pipeline re-enters Build exactly 3 extra times
(4 Build visits in total) and control then proceeds to the Check stage
(entered exactly once) — but `retry_count["validation_errors"]` remains 0
throughout, because the paths that produce a non-empty list do not increment
it and the increment in the normal-completion path is unreachable. -/
theorem C1_bounded_repair (e₁ e₂ e₃ : ValidatorOutcome)
    (h₁ : reportsErrors e₁) (h₂ : reportsErrors e₂) (h₃ : reportsErrors e₃) :
    ∃ f, run_workflow (traceRepair e₁ e₂ e₃) 10 initial_state = some f
      ∧ buildVisits f = 4
      ∧ checkVisits f = 1
      ∧ f.retry_count.validation_errors = 0
      ∧ f.success = true := by
  cases e₁ with
  | normal => exact (h₁ initial_state rfl).elim
  | timeout =>
    cases e₂ with
    | normal => exact (h₂ initial_state rfl).elim
    | timeout =>
      cases e₃ with
      | normal => exact (h₃ initial_state rfl).elim
      | timeout => exact ⟨_, rfl, rfl, rfl, rfl, rfl⟩
      | crash m₃ => exact ⟨_, rfl, rfl, rfl, rfl, rfl⟩
    | crash m₂ =>
      cases e₃ with
      | normal => exact (h₃ initial_state rfl).elim
      | timeout => exact ⟨_, rfl, rfl, rfl, rfl, rfl⟩
      | crash m₃ => exact ⟨_, rfl, rfl, rfl, rfl, rfl⟩
  | crash m₁ =>
    cases e₂ with
    | normal => exact (h₂ initial_state rfl).elim
    | timeout =>
      cases e₃ with
      | normal => exact (h₃ initial_state rfl).elim
      | timeout => exact ⟨_, rfl, rfl, rfl, rfl, rfl⟩
      | crash m₃ => exact ⟨_, rfl, rfl, rfl, rfl, rfl⟩
    | crash m₂ =>
      cases e₃ with
      | normal => exact (h₃ initial_state rfl).elim
      | timeout => exact ⟨_, rfl, rfl, rfl, rfl, rfl⟩
      | crash m₃ => exact ⟨_, rfl, rfl, rfl, rfl, rfl⟩

/-- C1 witness: the amended theorem applied to three timeouts. -/
theorem C1_bounded_repair_witness :
    buildVisits ((run_workflow (traceRepair .timeout .timeout .timeout) 10
        initial_state).getD initial_state) = 4
    ∧ ((run_workflow (traceRepair .timeout .timeout .timeout) 10
        initial_state).getD initial_state).retry_count.validation_errors = 0 := by
  obtain ⟨f, heq, hb, hc, hv, hs⟩ := C1_bounded_repair .timeout .timeout .timeout
    (fun s => by simp [code_validator_node]) (fun s => by simp [code_validator_node])
    (fun s => by simp [code_validator_node])
  rw [heq]
  exact ⟨hb, hv⟩

end LovableClone
